import Mathlib

/-!
Shallow embedding of `asyncio_xmpp/security_layer.py` (STARTTLS + SASL stream
security negotiation).

External collaborators (the XML stream, the SASL mechanism wire exchanges and
the password provider callback) are modelled as oracle functions; the
coroutine-with-exceptions control flow of the source is modelled with `Except`
and explicit state passing.  The mutable closure state of
`PasswordSASLProvider.execute` (`password_signalled_abort`, `nattempt`,
`cached_credentials`) becomes an explicit `ExecState`, extended with two
observation traces (`promptLog`, `exchangeLog`) recording the calls made to the
password provider and to the SASL wire exchange.
-/

set_option autoImplicit false

namespace AsyncioXMPP

/-- The two SASL mechanism classes used by `PasswordSASLProvider.execute`
(`sasl.SCRAM` always; `sasl.PLAIN` only when a TLS transport is present). -/
inductive MechClass where
  | SCRAM
  | PLAIN
deriving DecidableEq, Repr

/-- The value returned by `SASLMechanism.any_supported`; its shape is
irrelevant to the negotiation core and it is passed through unchanged. -/
structure Token where
  id : Nat
deriving DecidableEq, Repr

/-- The asyncio SSL transport produced by a successful STARTTLS upgrade. -/
structure TlsTransport where
  id : Nat
deriving DecidableEq, Repr

/-- Modelled from the spec: the `jid` module is not under `src/`; the spec's
"Identity" is "decomposable into a bare identity (no resource part)", with a
localpart and a domainpart. -/
structure JID where
  localpart : String
  domainpart : String
  resource : Option String
deriving DecidableEq, Repr

/-- `JID.bare`: the identity without the resource part. -/
def JID.bare (j : JID) : JID :=
  { j with resource := none }

/-- Modelled from the spec: the `errors` module is not under `src/`; §7 of the
spec gives the error taxonomy (TlsFailure, SaslUnavailable,
AuthenticationFailure, unclassified SASL failure).  `valueError` models
Python's `ValueError`; `pyTypeError` models the `TypeError` Python raises when
`raise` is given `None`; `otherError` stands for any exception outside the
taxonomy. -/
inductive Exc where
  | tlsFailure (msg : String)
  | saslUnavailable (msg : String)
  | saslFailure (xmppError : String) (text : Option String)
  | authenticationFailure (xmppError : Option String) (text : Option String)
  | valueError (msg : String)
  | pyTypeError (msg : String)
  | otherError (msg : String)
deriving DecidableEq, Repr

/-- Which exceptions an `except errors.AuthenticationFailure` clause catches. -/
def isAuthenticationFailure : Exc → Bool
  | .authenticationFailure _ _ => true
  | _ => false

/-- Outcome of one run of a SASL mechanism's wire exchange
(`mechanism.authenticate` after credentials were obtained): success, an
`errors.SASLFailure` carrying a condition string, or any other exception. -/
inductive ExchangeResult where
  | success
  | saslFailure (xmppError : String) (text : Option String)
  | otherError (msg : String)
deriving DecidableEq, Repr

/-- Oracles for the external SASL mechanism collaborators (`sasl` module, not
under `src/`): `anySupported` models `SASLMechanism.any_supported` on the
peer's mechanism name list; `exchange` models the wire challenge/response
exchange of one authentication attempt, given the mechanism class, the token,
the attempt number and the `(localpart, password)` credentials used. -/
structure World where
  anySupported : MechClass → List String → Option Token
  exchange : MechClass → Token → Nat → String × String → ExchangeResult

/-- The peer's stream features snapshot, restricted to what
`security_layer.py` queries: presence of the STARTTLS feature, and the SASL
mechanisms feature (`none` = feature absent, `require_feature` raises
`KeyError`; otherwise the list of `<mechanism>` child texts, `""` standing for
an absent/empty text node, which the source filters out). -/
structure StreamFeatures where
  hasStarttls : Bool
  saslMechanismsFeature : Option (List String)
deriving DecidableEq, Repr

/-- `SASLProvider.AUTHENTICATION_FAILURES` (security_layer.py lines 185-191). -/
def AUTHENTICATION_FAILURES : List String :=
  ["credentials-expired",
   "account-disabled",
   "invalid-authzid",
   "not-authorized",
   "temporary-auth-failure"]

/-- `SASLProvider.MECHANISM_REJECTED_FAILURES` (lines 193-197). -/
def MECHANISM_REJECTED_FAILURES : List String :=
  ["invalid-mechanism",
   "mechanism-too-weak",
   "encryption-required"]

instance {ε α : Type} [DecidableEq ε] [DecidableEq α] : DecidableEq (Except ε α) := fun x y =>
  match x, y with
  | .error a, .error b =>
    if h : a = b then .isTrue (by rw [h]) else .isFalse (fun hc => by cases hc; exact h rfl)
  | .ok a, .ok b =>
    if h : a = b then .isTrue (by rw [h]) else .isFalse (fun hc => by cases hc; exact h rfl)
  | .error _, .ok _ => .isFalse (fun hc => by cases hc)
  | .ok _, .error _ => .isFalse (fun hc => by cases hc)

/-- The STARTTLS-relevant behaviour of the xmlstream collaborator:
whether `xmlstream.transport` has a `starttls` attribute, whether the peer
answers the STARTTLS request with `proceed` (versus `failure`), and the result
of `transport.starttls` (`.error msg` = the upgrade raised an exception with
message `msg`). -/
structure XmlStreamTLS where
  transportHasStarttls : Bool
  peerRepliesProceed : Bool
  starttlsResult : Except String TlsTransport
deriving DecidableEq, Repr

/-- `STARTTLSProvider._fail_if_required` (lines 95-98): raise
`TLSFailure(msg)` when STARTTLS is required, otherwise return `None`. -/
def STARTTLSProvider._fail_if_required (required : Bool) (msg : String) :
    Except Exc (Option TlsTransport) :=
  if required then .error (.tlsFailure msg) else .ok none

/-- `STARTTLSProvider.execute` (lines 100-148).  `.ok (some t)` models a
successful upgrade returning the TLS transport, `.ok none` models the
non-fatal skip (`_fail_if_required` returning `None`), `.error` models a
raised exception. -/
def STARTTLSProvider.execute (required : Bool) (features : StreamFeatures)
    (xmlstream : XmlStreamTLS) : Except Exc (Option TlsTransport) :=
  if ¬ features.hasStarttls then
    STARTTLSProvider._fail_if_required required "STARTTLS not supported by peer"
  else if ¬ xmlstream.transportHasStarttls then
    STARTTLSProvider._fail_if_required required "STARTTLS not supported by us"
  else if xmlstream.peerRepliesProceed then
    match xmlstream.starttlsResult with
    | .ok tls_transport => .ok (some tls_transport)
    | .error err => .error (.tlsFailure ("TLS connection failed: " ++ err))
  else
    STARTTLSProvider._fail_if_required required "STARTTLS failed on remote side"

/-- The `for our_mechanism in mechanism_classes` loop of
`SASLProvider._find_supported` (lines 178-183): the first class whose
`any_supported` returns a token. -/
def SASLProvider.first_supported (w : World) (mechanism_classes : List MechClass)
    (remote_mechanism_list : List String) : Option (MechClass × Token) :=
  match mechanism_classes with
  | [] => none
  | our_mechanism :: rest =>
    match w.anySupported our_mechanism remote_mechanism_list with
    | some token => some (our_mechanism, token)
    | none => SASLProvider.first_supported w rest remote_mechanism_list

/-- `SASLProvider._find_supported` (lines 151-183): absence of the SASL
mechanisms feature raises `SASLUnavailable`; otherwise the advertised names
with non-empty text are collected and the first supported class is returned
(`.ok none` models the source's `(None, None)`). -/
def SASLProvider._find_supported (w : World) (features : StreamFeatures)
    (mechanism_classes : List MechClass) :
    Except Exc (Option (MechClass × Token)) :=
  match features.saslMechanismsFeature with
  | none => .error (.saslUnavailable "Remote side does not support SASL")
  | some texts =>
    .ok (SASLProvider.first_supported w mechanism_classes
      (texts.filter (fun t => t ≠ "")))

/-- The mutable state captured by the closures in
`PasswordSASLProvider.execute` (`password_signalled_abort`,
`cached_credentials`), plus two observation traces: `promptLog` records each
attempt number at which `password_provider` was actually consulted, and
`exchangeLog` records each run of a mechanism's wire exchange as
`(mechanism class, nattempt)`. -/
structure ExecState where
  passwordSignalledAbort : Bool
  cachedCredentials : Option String
  promptLog : List Nat
  exchangeLog : List (MechClass × Nat)
deriving DecidableEq, Repr

/-- The state at the start of `PasswordSASLProvider.execute`
(lines 271-273). -/
def initialExecState : ExecState :=
  { passwordSignalledAbort := false
    cachedCredentials := none
    promptLog := []
    exchangeLog := [] }

/-- The `credential_provider` closure (lines 275-288): return the cached
credentials if present, otherwise consult the password provider with the
current attempt number; `None` from the provider latches the abort flag and
raises `AuthenticationFailure("Authentication aborted by user")`. -/
def credential_provider (password_provider : JID → Nat → Option String)
    (client_jid : JID) (nattempt : Nat) (st : ExecState) :
    Except Exc (String × String) × ExecState :=
  match st.cachedCredentials with
  | some cached => (.ok (client_jid.localpart, cached), st)
  | none =>
    match password_provider client_jid nattempt with
    | none =>
      (.error (.authenticationFailure (some "Authentication aborted by user") none),
       { st with passwordSignalledAbort := true,
                 promptLog := st.promptLog ++ [nattempt] })
    | some password =>
      (.ok (client_jid.localpart, password),
       { st with cachedCredentials := some password,
                 promptLog := st.promptLog ++ [nattempt] })

/-- Modelled from the spec: `mechanism.authenticate` of the `sasl` module is
not under `src/`.  Per §4.2 each attempt first obtains credentials via the
credential provider (whose abort exception propagates), then runs the
mechanism's own challenge/response exchange, whose outcome the `exchange`
oracle supplies; the run is recorded in `exchangeLog`. -/
def SASLMechanism.authenticate (w : World) (mechanism : MechClass) (token : Token)
    (password_provider : JID → Nat → Option String) (client_jid : JID)
    (nattempt : Nat) (st : ExecState) : Except Exc Unit × ExecState :=
  match credential_provider password_provider client_jid nattempt st with
  | (.error e, st') => (.error e, st')
  | (.ok credentials, st') =>
    (match w.exchange mechanism token nattempt credentials with
     | .success => .ok ()
     | .saslFailure xmppError text => .error (.saslFailure xmppError text)
     | .otherError msg => .error (.otherError msg),
     { st' with exchangeLog := st'.exchangeLog ++ [(mechanism, nattempt)] })

/-- `SASLProvider._execute` (lines 199-216): run the exchange; on
`SASLFailure`, re-raise authentication-class conditions as
`AuthenticationFailure`, turn mechanism-rejected-class conditions into
`False`, and re-raise anything else unchanged (an `AuthenticationFailure`
raised by the credential provider's abort also propagates unchanged). -/
def SASLProvider._execute (w : World) (mechanism : MechClass) (token : Token)
    (password_provider : JID → Nat → Option String) (client_jid : JID)
    (nattempt : Nat) (st : ExecState) : Except Exc Bool × ExecState :=
  match SASLMechanism.authenticate w mechanism token password_provider
      client_jid nattempt st with
  | (.ok _, st') => (.ok true, st')
  | (.error e, st') =>
    (match e with
     | .saslFailure xmppError text =>
       if xmppError ∈ AUTHENTICATION_FAILURES then
         .error (.authenticationFailure (some xmppError) text)
       else if xmppError ∈ MECHANISM_REJECTED_FAILURES then
         .ok false
       else
         .error (.saslFailure xmppError text)
     | _ => .error e,
     st')

/-- Result of the `for nattempt in range(self._max_auth_attempts)` loop of
`PasswordSASLProvider.execute`: `broke` = the loop was left via `break`
carrying `mechanism_worked`; `raised` = an exception propagated (immediate
re-raise on user abort, an unclassified failure, or `raise last_auth_error`
when the attempts are exhausted). -/
inductive AttemptOutcome where
  | broke (mechanismWorked : Bool)
  | raised (e : Exc)
deriving DecidableEq, Repr

/-- The attempt loop of `PasswordSASLProvider.execute` (lines 304-320),
with `remaining` the number of range elements still to run and `nattempt` the
next attempt number: on an `AuthenticationFailure` with the abort flag set it
re-raises immediately; otherwise it remembers the error, clears the credential
cache and retries; when the range is exhausted it raises the last remembered
authentication error (`raise None` is a `TypeError` in Python, covering the
`max_auth_attempts = 0` edge case). -/
def PasswordSASLProvider.attempt_loop (w : World) (mechanism : MechClass)
    (token : Token) (password_provider : JID → Nat → Option String)
    (client_jid : JID) (remaining : Nat) (nattempt : Nat) (st : ExecState)
    (last_auth_error : Option Exc) : AttemptOutcome × ExecState :=
  match remaining with
  | 0 =>
    match last_auth_error with
    | some e => (.raised e, st)
    | none => (.raised (.pyTypeError "exceptions must derive from BaseException"), st)
  | r + 1 =>
    match SASLProvider._execute w mechanism token password_provider
        client_jid nattempt st with
    | (.ok mechanism_worked, st') => (.broke mechanism_worked, st')
    | (.error e, st') =>
      if isAuthenticationFailure e then
        if st'.passwordSignalledAbort then
          (.raised e, st')
        else
          PasswordSASLProvider.attempt_loop w mechanism token password_provider
            client_jid r (nattempt + 1)
            { st' with cachedCredentials := none } (some e)
      else
        (.raised e, st')

/-- The `while classes:` loop of `PasswordSASLProvider.execute`
(lines 296-326), fuelled: each iteration selects the first supported
candidate, runs the attempt loop on it, and on `mechanism_worked = False`
(mechanism rejected) removes that class and continues; `none` = fuel
exhausted (shown below never to happen with fuel = number of candidates). -/
def PasswordSASLProvider.mech_loop (w : World)
    (password_provider : JID → Nat → Option String) (client_jid : JID)
    (max_auth_attempts : Nat) (features : StreamFeatures) (fuel : Nat)
    (classes : List MechClass) (st : ExecState) :
    Option (Except Exc Bool × ExecState) :=
  match classes with
  | [] => some (.ok false, st)
  | _ :: _ =>
    match fuel with
    | 0 => none
    | f + 1 =>
      match SASLProvider._find_supported w features classes with
      | .error e => some (.error e, st)
      | .ok none => some (.ok false, st)
      | .ok (some (mechanism_class, token)) =>
        match PasswordSASLProvider.attempt_loop w mechanism_class token
            password_provider client_jid max_auth_attempts 0 st none with
        | (.raised e, st') => some (.error e, st')
        | (.broke mechanism_worked, st') =>
          if mechanism_worked then
            some (.ok true, st')
          else
            PasswordSASLProvider.mech_loop w password_provider client_jid
              max_auth_attempts features f (classes.erase mechanism_class) st'

/-- The initial candidate list of `PasswordSASLProvider.execute`
(lines 290-294): always `sasl.SCRAM`; `sasl.PLAIN` is appended only when a
TLS transport is present. -/
def PasswordSASLProvider.classes_for (tls_transport : Option TlsTransport) :
    List MechClass :=
  [MechClass.SCRAM] ++
    (match tls_transport with
     | some _ => [MechClass.PLAIN]
     | none => [])

/-- `PasswordSASLProvider.execute` (lines 263-326): bare the client JID,
build the candidate list and run the mechanism loop with fuel equal to the
number of candidates (proved sufficient below; the `getD` default is never
reached). -/
def PasswordSASLProvider.execute (w : World)
    (password_provider : JID → Nat → Option String)
    (max_auth_attempts : Nat) (client_jid : JID) (features : StreamFeatures)
    (tls_transport : Option TlsTransport) : Except Exc Bool × ExecState :=
  let client_jid := client_jid.bare
  let classes := PasswordSASLProvider.classes_for tls_transport
  (PasswordSASLProvider.mech_loop w password_provider client_jid
      max_auth_attempts features classes.length classes
      initialExecState).getD (.ok false, initialExecState)

/-- A SASL provider as seen by `negotiate_stream_security`: the exception-or-
boolean outcome of its `execute`, as a function of the features snapshot and
the TLS transport state it is invoked with. -/
abbrev SASLProviderFun :=
  StreamFeatures → Option TlsTransport → Except Exc Bool

/-- The `for sasl_provider in sasl_providers` loop of
`negotiate_stream_security` (lines 377-394): an `AuthenticationFailure` is
remembered and the next provider is tried, any other exception propagates, a
`True` result triggers a stream reset (the `resetFeatures` oracle, indexed by
how many resets happened before) and success, and on exhaustion the last
remembered authentication error — or `SASLUnavailable("No common
mechanisms")` — is raised. -/
def sasl_provider_loop (sasl_providers : List SASLProviderFun)
    (features : StreamFeatures) (tls_transport : Option TlsTransport)
    (resetFeatures : Nat → Except Exc StreamFeatures) (resetIdx : Nat)
    (last_auth_error : Option Exc) :
    Except Exc (Option TlsTransport × StreamFeatures) :=
  match sasl_providers with
  | [] =>
    match last_auth_error with
    | some e => .error e
    | none => .error (.saslUnavailable "No common mechanisms")
  | sasl_provider :: rest =>
    match sasl_provider features tls_transport with
    | .error e =>
      if isAuthenticationFailure e then
        sasl_provider_loop rest features tls_transport resetFeatures resetIdx (some e)
      else
        .error e
    | .ok result =>
      if result then
        match resetFeatures resetIdx with
        | .error e => .error e
        | .ok newFeatures => .ok (tls_transport, newFeatures)
      else
        sasl_provider_loop rest features tls_transport resetFeatures resetIdx
          last_auth_error

/-- `negotiate_stream_security` (lines 334-396): run the TLS provider (its
result is the `tlsProviderResult` argument; exceptions propagate), refresh the
features after an established TLS, then run the SASL provider loop. -/
def negotiate_stream_security (tlsProviderResult : Except Exc (Option TlsTransport))
    (sasl_providers : List SASLProviderFun)
    (resetFeatures : Nat → Except Exc StreamFeatures)
    (features : StreamFeatures) :
    Except Exc (Option TlsTransport × StreamFeatures) :=
  match tlsProviderResult with
  | .error e => .error e
  | .ok tls_transport =>
    match tls_transport with
    | some t =>
      match resetFeatures 0 with
      | .error e => .error e
      | .ok newFeatures =>
        sasl_provider_loop sasl_providers newFeatures (some t) resetFeatures 1 none
    | none =>
      sasl_provider_loop sasl_providers features none resetFeatures 0 none

/-- `security_layer` (lines 398-421): reject an empty provider list with
`ValueError`, otherwise return the pair of bound arguments of the partially
applied `negotiate_stream_security` (the `.execute` attribute probes of the
source are static and have no observable effect here). -/
def security_layer {α : Type} (tls_provider : α)
    (sasl_providers : List SASLProviderFun) :
    Except Exc (α × List SASLProviderFun) :=
  if sasl_providers.isEmpty then
    .error (.valueError "At least one SASL provider must be given.")
  else
    .ok (tls_provider, sasl_providers)

/-- Number of wire-exchange runs of mechanism class `m` recorded in an
exchange log. -/
def countMech (l : List (MechClass × Nat)) (m : MechClass) : Nat :=
  l.countP (fun e => e.1 == m)


/-- Whether an exchange outcome is an `errors.SASLFailure` with a
mechanism-rejected-class condition. -/
def isMechanismRejectedResult : ExchangeResult → Bool
  | .saslFailure xmppError _ => decide (xmppError ∈ MECHANISM_REJECTED_FAILURES)
  | _ => false

/-- A world for the C1 scenario: every mechanism is advertised as usable and
every wire exchange would succeed (never reached, since the password provider
aborts first). -/
def c1World : World :=
  { anySupported := fun _ _ => some ⟨0⟩
    exchange := fun _ _ _ _ => .success }

/-- A password provider that immediately signals abort. -/
def c1AbortPP : JID → Nat → Option String := fun _ _ => none

def c1Jid : JID := ⟨"romeo", "example.com", none⟩

def c1Features : StreamFeatures := ⟨false, some ["SCRAM-SHA-1"]⟩

/-- A `PasswordSASLProvider` whose credential source aborts at once. -/
def c1AbortProvider : SASLProviderFun := fun f t =>
  (PasswordSASLProvider.execute c1World c1AbortPP 3 c1Jid f t).1

/-- A later SASL provider in the list which authenticates successfully. -/
def c1NextProvider : SASLProviderFun := fun _ _ => .ok true

def c1Reset : Nat → Except Exc StreamFeatures := fun _ => .ok c1Features

/-! ### Helper lemmas -/

/-- The per-mechanism count is bounded by the log length. -/
theorem countMech_le_length (l : List (MechClass × Nat)) (m : MechClass) :
    countMech l m ≤ l.length :=
  List.countP_le_length _

/-- `SASLProvider._execute` returns the state produced by the
authentication run unchanged in every branch. -/
theorem SASLProvider._execute_snd (w : World) (mechanism : MechClass)
    (token : Token) (pp : JID → Nat → Option String) (jid : JID) (n : Nat)
    (st : ExecState) :
    (SASLProvider._execute w mechanism token pp jid n st).2 =
      (SASLMechanism.authenticate w mechanism token pp jid n st).2 := by
  unfold SASLProvider._execute
  rcases h : SASLMechanism.authenticate w mechanism token pp jid n st with ⟨res, st'⟩
  cases res <;> simp

/-- One authentication run extends the prompt log by at most one attempt
number and the exchange log by at most one entry, of the run's mechanism. -/
theorem authenticate_log (w : World) (mech : MechClass) (token : Token)
    (pp : JID → Nat → Option String) (jid : JID) (n : Nat) (st : ExecState) :
    ∃ pl el,
      (SASLMechanism.authenticate w mech token pp jid n st).2.promptLog =
        st.promptLog ++ pl ∧
      (SASLMechanism.authenticate w mech token pp jid n st).2.exchangeLog =
        st.exchangeLog ++ el ∧
      pl.length ≤ 1 ∧ el.length ≤ 1 ∧ ∀ e ∈ el, e.1 = mech := by
  unfold SASLMechanism.authenticate credential_provider
  cases hcc : st.cachedCredentials with
  | some c =>
    exact ⟨[], [(mech, n)], by simp, by simp, by simp, by simp, by simp⟩
  | none =>
    cases hpp : pp jid n with
    | none => exact ⟨[n], [], by simp, by simp, by simp, by simp, by simp⟩
    | some pw =>
      exact ⟨[n], [(mech, n)], by simp, by simp, by simp, by simp, by simp⟩

/-- Log growth of one `_execute` run (combining the two lemmas above). -/
theorem execute_one_log (w : World) (mech : MechClass) (token : Token)
    (pp : JID → Nat → Option String) (jid : JID) (n : Nat) (st : ExecState) :
    ∃ pl el,
      (SASLProvider._execute w mech token pp jid n st).2.promptLog =
        st.promptLog ++ pl ∧
      (SASLProvider._execute w mech token pp jid n st).2.exchangeLog =
        st.exchangeLog ++ el ∧
      pl.length ≤ 1 ∧ el.length ≤ 1 ∧ ∀ e ∈ el, e.1 = mech := by
  rw [SASLProvider._execute_snd]
  exact authenticate_log w mech token pp jid n st

/-- Log growth of a whole attempt loop: at most `remaining` prompts and at
most `remaining` exchange runs, all of the loop's mechanism. -/
theorem attempt_loop_log (w : World) (mech : MechClass) (token : Token)
    (pp : JID → Nat → Option String) (jid : JID) :
    ∀ (r n : Nat) (st : ExecState) (last : Option Exc),
      ∃ pl el,
        (PasswordSASLProvider.attempt_loop w mech token pp jid r n st last).2.promptLog =
          st.promptLog ++ pl ∧
        (PasswordSASLProvider.attempt_loop w mech token pp jid r n st last).2.exchangeLog =
          st.exchangeLog ++ el ∧
        pl.length ≤ r ∧ el.length ≤ r ∧ ∀ e ∈ el, e.1 = mech := by
  intro r
  induction r with
  | zero =>
    intro n st last
    refine ⟨[], [], ?_, ?_, ?_, ?_, ?_⟩ <;>
      cases last <;> simp [PasswordSASLProvider.attempt_loop]
  | succ r ih =>
    intro n st last
    obtain ⟨pl1, el1, hp1, he1, lp1, le1, hm1⟩ := execute_one_log w mech token pp jid n st
    rcases hx : SASLProvider._execute w mech token pp jid n st with ⟨res, st1⟩
    rw [hx] at hp1 he1
    dsimp only at hp1 he1
    cases res with
    | ok b =>
      refine ⟨pl1, el1, ?_, ?_, by omega, by omega, hm1⟩ <;>
        · simp only [PasswordSASLProvider.attempt_loop, hx]
          first | exact hp1 | exact he1
    | error e =>
      by_cases hauth : isAuthenticationFailure e
      · cases hab : st1.passwordSignalledAbort with
        | true =>
          refine ⟨pl1, el1, ?_, ?_, by omega, by omega, hm1⟩ <;>
            · simp only [PasswordSASLProvider.attempt_loop, hx, hauth, if_true, hab]
              first | exact hp1 | exact he1
        | false =>
          obtain ⟨pl2, el2, hp2, he2, lp2, le2, hm2⟩ :=
            ih (n + 1) { st1 with cachedCredentials := none } (some e)
          have hred : PasswordSASLProvider.attempt_loop w mech token pp jid
              (r + 1) n st last =
              PasswordSASLProvider.attempt_loop w mech token pp jid r (n + 1)
                { st1 with cachedCredentials := none } (some e) := by
            simp only [PasswordSASLProvider.attempt_loop, hx, hauth, if_true, hab]
            simp
          refine ⟨pl1 ++ pl2, el1 ++ el2, ?_, ?_, by simp only [List.length_append]; omega,
            by simp only [List.length_append]; omega, ?_⟩
          · rw [hred, hp2]
            simp [hp1]
          · rw [hred, he2]
            simp [he1]
          · intro e' he'
            rcases List.mem_append.mp he' with h | h
            · exact hm1 e' h
            · exact hm2 e' h
      · refine ⟨pl1, el1, ?_, ?_, by omega, by omega, hm1⟩ <;>
          · simp only [PasswordSASLProvider.attempt_loop, hx]
            rw [if_neg]
            · first | exact hp1 | exact he1
            · simp [hauth]

/-- The first supported mechanism class is an element of the candidate
list. -/
theorem first_supported_mem (w : World) (remote : List String) :
    ∀ (classes : List MechClass) (m : MechClass) (token : Token),
      SASLProvider.first_supported w classes remote = some (m, token) →
      m ∈ classes := by
  intro classes
  induction classes with
  | nil => intro m token h; simp [SASLProvider.first_supported] at h
  | cons c cs ih =>
    intro m token h
    unfold SASLProvider.first_supported at h
    cases hs : w.anySupported c remote with
    | some tok =>
      rw [hs] at h
      obtain ⟨rfl, -⟩ : c = m ∧ tok = token := by
        refine ⟨?_, ?_⟩ <;> injection h with h' <;> cases h' <;> rfl
      exact List.mem_cons_self c cs
    | none =>
      rw [hs] at h
      exact List.mem_cons_of_mem c (ih m token h)

/-- The mechanism class returned by `_find_supported` is an element of the
candidate list. -/
theorem find_supported_mem (w : World) (features : StreamFeatures)
    (classes : List MechClass) (m : MechClass) (token : Token)
    (h : SASLProvider._find_supported w features classes = .ok (some (m, token))) :
    m ∈ classes := by
  unfold SASLProvider._find_supported at h
  cases hf : features.saslMechanismsFeature with
  | none => rw [hf] at h; cases h
  | some texts =>
    rw [hf] at h
    injection h with h'
    exact first_supported_mem w (texts.filter (fun t => t ≠ "")) classes m token h'

/-- With fuel at least the number of candidate classes, the mechanism loop
always returns a result, whose logs grew by at most `classes.length * max`
prompts and exchange runs. -/
theorem mech_loop_some_log (w : World) (pp : JID → Nat → Option String)
    (jid : JID) (max : Nat) (features : StreamFeatures) :
    ∀ (fuel : Nat) (classes : List MechClass) (st : ExecState),
      classes.length ≤ fuel →
      ∃ res, PasswordSASLProvider.mech_loop w pp jid max features fuel classes st =
          some res ∧
        ∃ pl el, res.2.promptLog = st.promptLog ++ pl ∧
          res.2.exchangeLog = st.exchangeLog ++ el ∧
          pl.length ≤ classes.length * max ∧ el.length ≤ classes.length * max := by
  intro fuel
  induction fuel with
  | zero =>
    intro classes st h
    have hc : classes = [] := List.length_eq_zero.mp (Nat.le_zero.mp h)
    subst hc
    exact ⟨(.ok false, st), rfl, [], [], by simp, by simp, by simp, by simp⟩
  | succ f ih =>
    intro classes st h
    cases classes with
    | nil => exact ⟨(.ok false, st), rfl, [], [], by simp, by simp, by simp, by simp⟩
    | cons c cs =>
      cases hfind : SASLProvider._find_supported w features (c :: cs) with
      | error e =>
        refine ⟨(.error e, st), ?_, [], [], by simp, by simp, by simp, by simp⟩
        simp [PasswordSASLProvider.mech_loop, hfind]
      | ok o =>
        cases o with
        | none =>
          refine ⟨(.ok false, st), ?_, [], [], by simp, by simp, by simp, by simp⟩
          simp [PasswordSASLProvider.mech_loop, hfind]
        | some mt =>
          obtain ⟨mech, token⟩ := mt
          obtain ⟨pl1, el1, hp1, he1, lp1, le1, hm1⟩ :=
            attempt_loop_log w mech token pp jid max 0 st none
          rcases hat : PasswordSASLProvider.attempt_loop w mech token pp jid
            max 0 st none with ⟨out, st1⟩
          rw [hat] at hp1 he1
          dsimp only at hp1 he1
          have hmem : mech ∈ c :: cs := find_supported_mem w features _ mech token hfind
          have hmul : max ≤ (c :: cs).length * max := by
            simp only [List.length_cons, Nat.succ_mul]
            omega
          cases out with
          | raised e =>
            refine ⟨(.error e, st1), ?_, pl1, el1, hp1, he1, by omega, by omega⟩
            simp [PasswordSASLProvider.mech_loop, hfind, hat]
          | broke b =>
            cases b with
            | true =>
              refine ⟨(.ok true, st1), ?_, pl1, el1, hp1, he1, by omega, by omega⟩
              simp [PasswordSASLProvider.mech_loop, hfind, hat]
            | false =>
              have herase : ((c :: cs).erase mech).length = cs.length := by
                rw [List.length_erase_of_mem hmem]
                simp
              have hlen : (c :: cs).length = cs.length + 1 := by simp
              obtain ⟨res2, hres2, pl2, el2, hp2, he2, lp2, le2⟩ :=
                ih ((c :: cs).erase mech) st1 (by omega)
              rw [herase] at lp2 le2
              refine ⟨res2, ?_, pl1 ++ pl2, el1 ++ el2, ?_, ?_, ?_, ?_⟩
              · simp only [PasswordSASLProvider.mech_loop, hfind, hat]
                simpa using hres2
              · rw [hp2, hp1]
                simp
              · rw [he2, he1]
                simp
              · calc (pl1 ++ pl2).length = pl1.length + pl2.length :=
                      List.length_append pl1 pl2
                  _ ≤ max + cs.length * max := Nat.add_le_add lp1 lp2
                  _ = (c :: cs).length * max := by
                      simp [List.length_cons, Nat.succ_mul, Nat.add_comm]
              · calc (el1 ++ el2).length = el1.length + el2.length :=
                      List.length_append el1 el2
                  _ ≤ max + cs.length * max := Nat.add_le_add le1 le2
                  _ = (c :: cs).length * max := by
                      simp [List.length_cons, Nat.succ_mul, Nat.add_comm]

/-- Every exchange-log entry produced by the mechanism loop belongs to one of
the candidate classes the loop was started with. -/
theorem mech_loop_entries (w : World) (pp : JID → Nat → Option String)
    (jid : JID) (max : Nat) (features : StreamFeatures) :
    ∀ (fuel : Nat) (classes : List MechClass) (st : ExecState)
      (res : Except Exc Bool × ExecState),
      PasswordSASLProvider.mech_loop w pp jid max features fuel classes st = some res →
      ∀ e ∈ res.2.exchangeLog, e ∈ st.exchangeLog ∨ e.1 ∈ classes := by
  intro fuel
  induction fuel with
  | zero =>
    intro classes st res h e he
    cases classes with
    | nil =>
      simp only [PasswordSASLProvider.mech_loop, Option.some.injEq] at h
      rw [← h] at he
      exact Or.inl he
    | cons c cs => simp [PasswordSASLProvider.mech_loop] at h
  | succ f ih =>
    intro classes st res h e he
    cases classes with
    | nil =>
      simp only [PasswordSASLProvider.mech_loop, Option.some.injEq] at h
      rw [← h] at he
      exact Or.inl he
    | cons c cs =>
      cases hfind : SASLProvider._find_supported w features (c :: cs) with
      | error e' =>
        simp only [PasswordSASLProvider.mech_loop, hfind, Option.some.injEq] at h
        rw [← h] at he
        exact Or.inl he
      | ok o =>
        cases o with
        | none =>
          simp only [PasswordSASLProvider.mech_loop, hfind, Option.some.injEq] at h
          rw [← h] at he
          exact Or.inl he
        | some mt =>
          obtain ⟨mech, token⟩ := mt
          obtain ⟨pl1, el1, hp1, he1, lp1, le1, hm1⟩ :=
            attempt_loop_log w mech token pp jid max 0 st none
          rcases hat : PasswordSASLProvider.attempt_loop w mech token pp jid
            max 0 st none with ⟨out, st1⟩
          rw [hat] at hp1 he1
          dsimp only at hp1 he1
          have hmem : mech ∈ c :: cs := find_supported_mem w features _ mech token hfind
          have hst1 : ∀ e' ∈ st1.exchangeLog, e' ∈ st.exchangeLog ∨ e'.1 ∈ c :: cs := by
            intro e' he'
            rw [he1] at he'
            rcases List.mem_append.mp he' with h' | h'
            · exact Or.inl h'
            · exact Or.inr (hm1 e' h' ▸ hmem)
          cases out with
          | raised e' =>
            simp only [PasswordSASLProvider.mech_loop, hfind, hat,
              Option.some.injEq] at h
            rw [← h] at he
            exact hst1 e he
          | broke b =>
            cases b with
            | true =>
              simp only [PasswordSASLProvider.mech_loop, hfind, hat,
                Option.some.injEq, if_true] at h
              rw [← h] at he
              exact hst1 e he
            | false =>
              have hrec : PasswordSASLProvider.mech_loop w pp jid max features f
                  ((c :: cs).erase mech) st1 = some res := by
                have := h
                simp only [PasswordSASLProvider.mech_loop, hfind, hat] at this
                simpa using this
              rcases ih ((c :: cs).erase mech) st1 res hrec e he with h' | h'
              · exact hst1 e h'
              · exact Or.inr (List.erase_subset mech (c :: cs) h')

/-- Per-mechanism exchange-count bound for the mechanism loop: if each
attempt-loop run of mechanism `m` adds at most `B` exchange runs of `m`, the
whole loop adds at most `B` when `m` is a candidate (each class is selected
at most once) and none otherwise. -/
theorem mech_loop_countM (w : World) (pp : JID → Nat → Option String)
    (jid : JID) (max : Nat) (features : StreamFeatures) (m : MechClass) (B : Nat)
    (HB : ∀ (token : Token) (st : ExecState),
      countMech (PasswordSASLProvider.attempt_loop w m token pp jid
          max 0 st none).2.exchangeLog m ≤
        countMech st.exchangeLog m + B) :
    ∀ (fuel : Nat) (classes : List MechClass) (st : ExecState)
      (res : Except Exc Bool × ExecState),
      classes.Nodup →
      PasswordSASLProvider.mech_loop w pp jid max features fuel classes st = some res →
      countMech res.2.exchangeLog m ≤
        countMech st.exchangeLog m + (if m ∈ classes then B else 0) := by
  intro fuel
  induction fuel with
  | zero =>
    intro classes st res hnd h
    cases classes with
    | nil =>
      simp only [PasswordSASLProvider.mech_loop, Option.some.injEq] at h
      rw [← h]
      simp
    | cons c cs => simp [PasswordSASLProvider.mech_loop] at h
  | succ f ih =>
    intro classes st res hnd h
    cases classes with
    | nil =>
      simp only [PasswordSASLProvider.mech_loop, Option.some.injEq] at h
      rw [← h]
      simp
    | cons c cs =>
      cases hfind : SASLProvider._find_supported w features (c :: cs) with
      | error e' =>
        simp only [PasswordSASLProvider.mech_loop, hfind, Option.some.injEq] at h
        rw [← h]
        simp
      | ok o =>
        cases o with
        | none =>
          simp only [PasswordSASLProvider.mech_loop, hfind, Option.some.injEq] at h
          rw [← h]
          simp
        | some mt =>
          obtain ⟨mech, token⟩ := mt
          obtain ⟨pl1, el1, hp1, he1, lp1, le1, hm1⟩ :=
            attempt_loop_log w mech token pp jid max 0 st none
          rcases hat : PasswordSASLProvider.attempt_loop w mech token pp jid
            max 0 st none with ⟨out, st1⟩
          rw [hat] at hp1 he1
          dsimp only at hp1 he1
          have hmem : mech ∈ c :: cs := find_supported_mem w features _ mech token hfind
          have hstep : countMech st1.exchangeLog m ≤
              countMech st.exchangeLog m + (if mech = m then B else 0) := by
            by_cases hm : mech = m
            · subst hm
              have := HB token st
              rw [hat] at this
              simpa using this
            · have hzero : countMech el1 m = 0 := by
                unfold countMech
                refine List.countP_eq_zero.mpr ?_
                intro a ha
                have := hm1 a ha
                simp [this, hm]
              rw [if_neg hm]
              unfold countMech at hzero ⊢
              rw [he1, List.countP_append, hzero]
          have hifle : (if mech = m then B else 0) ≤ (if m ∈ c :: cs then B else 0) := by
            by_cases hm : mech = m
            · subst hm
              simp [hmem]
            · simp [hm]
          cases out with
          | raised e' =>
            simp only [PasswordSASLProvider.mech_loop, hfind, hat,
              Option.some.injEq] at h
            rw [← h]
            dsimp only
            omega
          | broke b =>
            cases b with
            | true =>
              simp only [PasswordSASLProvider.mech_loop, hfind, hat,
                Option.some.injEq, if_true] at h
              rw [← h]
              dsimp only
              omega
            | false =>
              have hrec : PasswordSASLProvider.mech_loop w pp jid max features f
                  ((c :: cs).erase mech) st1 = some res := by
                have := h
                simp only [PasswordSASLProvider.mech_loop, hfind, hat] at this
                simpa using this
              have hrec2 := ih ((c :: cs).erase mech) st1 res (hnd.erase mech) hrec
              have hifle2 : (if mech = m then B else 0) +
                  (if m ∈ (c :: cs).erase mech then B else 0) ≤
                  (if m ∈ c :: cs then B else 0) := by
                by_cases hm : mech = m
                · subst hm
                  have hnm : mech ∉ (c :: cs).erase mech := by
                    intro hcon
                    exact ((hnd.mem_erase_iff).mp hcon).1 rfl
                  simp [hnm, hmem]
                · by_cases hm2 : m ∈ (c :: cs).erase mech
                  · have : m ∈ c :: cs := List.erase_subset mech (c :: cs) hm2
                    simp [hm, hm2, this]
                  · simp [hm, hm2]
              omega

/-- One-step unfolding of the attempt loop, for controlled rewriting. -/
theorem attempt_loop_succ (w : World) (mech : MechClass) (token : Token)
    (pp : JID → Nat → Option String) (jid : JID) (r n : Nat) (st : ExecState)
    (last : Option Exc) :
    PasswordSASLProvider.attempt_loop w mech token pp jid (r + 1) n st last =
      match SASLProvider._execute w mech token pp jid n st with
      | (.ok mechanism_worked, st') => (.broke mechanism_worked, st')
      | (.error e, st') =>
        if isAuthenticationFailure e then
          if st'.passwordSignalledAbort then
            (.raised e, st')
          else
            PasswordSASLProvider.attempt_loop w mech token pp jid r (n + 1)
              { st' with cachedCredentials := none } (some e)
        else
          (.raised e, st') := rfl

/-- The two failure classification sets of `SASLProvider` are disjoint. -/
theorem mech_rejected_not_auth {c : String} (h : c ∈ MECHANISM_REJECTED_FAILURES) :
    c ∉ AUTHENTICATION_FAILURES := by
  simp only [MECHANISM_REJECTED_FAILURES, List.mem_cons,
    List.not_mem_nil, or_false] at h
  rcases h with rfl | rfl | rfl <;> decide

/-- If the wire exchange reports a mechanism-rejected condition and the
credential step does not abort, `_execute` returns `False`. -/
theorem execute_one_rejected (w : World) (mech : MechClass) (token : Token)
    (pp : JID → Nat → Option String) (jid : JID) (n : Nat) (st : ExecState)
    (hrej : ∀ creds : String × String,
      isMechanismRejectedResult (w.exchange mech token n creds) = true)
    (hcred : st.cachedCredentials.isSome ∨ (pp jid n).isSome) :
    (SASLProvider._execute w mech token pp jid n st).1 = .ok false := by
  unfold SASLProvider._execute SASLMechanism.authenticate credential_provider
  cases hcc : st.cachedCredentials with
  | some c =>
    have h1 := hrej (jid.localpart, c)
    rcases hex : w.exchange mech token n (jid.localpart, c) with _ | ⟨cond, text⟩ | msg
    · rw [hex] at h1
      simp [isMechanismRejectedResult] at h1
    · rw [hex] at h1
      have hmem : cond ∈ MECHANISM_REJECTED_FAILURES := by
        simpa [isMechanismRejectedResult] using h1
      have hnot := mech_rejected_not_auth hmem
      simp [hex, hmem, hnot]
    · rw [hex] at h1
      simp [isMechanismRejectedResult] at h1
  | none =>
    rcases hcred with hsome | hsome
    · rw [hcc] at hsome
      simp at hsome
    · obtain ⟨pw, hpw⟩ := Option.isSome_iff_exists.mp hsome
      have h1 := hrej (jid.localpart, pw)
      rcases hex : w.exchange mech token n (jid.localpart, pw) with _ | ⟨cond, text⟩ | msg
      · rw [hex] at h1
        simp [isMechanismRejectedResult] at h1
      · rw [hex] at h1
        have hmem : cond ∈ MECHANISM_REJECTED_FAILURES := by
          simpa [isMechanismRejectedResult] using h1
        have hnot := mech_rejected_not_auth hmem
        simp [hpw, hex, hmem, hnot]
      · rw [hex] at h1
        simp [isMechanismRejectedResult] at h1

/-- Under an always-mechanism-rejected wire oracle for mechanism `m`, one
attempt loop run records at most one exchange of `m` (the loop never
retries a mechanism-rejected failure). -/
theorem attempt_loop_reject (w : World) (m : MechClass)
    (pp : JID → Nat → Option String) (jid : JID)
    (hrej : ∀ (token : Token) (n : Nat) (creds : String × String),
      isMechanismRejectedResult (w.exchange m token n creds) = true) :
    ∀ (token : Token) (r n : Nat) (st : ExecState) (last : Option Exc),
      ∃ el, (PasswordSASLProvider.attempt_loop w m token pp jid r n st
          last).2.exchangeLog = st.exchangeLog ++ el ∧ el.length ≤ 1 := by
  intro token r n st last
  cases r with
  | zero =>
    refine ⟨[], ?_, by simp⟩
    cases last <;> simp [PasswordSASLProvider.attempt_loop]
  | succ r =>
    by_cases hcred : st.cachedCredentials.isSome ∨ (pp jid n).isSome
    · have hok := execute_one_rejected w m token pp jid n st (hrej token n) hcred
      obtain ⟨pl1, el1, hp1, he1, lp1, le1, hm1⟩ := execute_one_log w m token pp jid n st
      rcases hx : SASLProvider._execute w m token pp jid n st with ⟨res, st1⟩
      rw [hx] at hok hp1 he1
      dsimp only at hok hp1 he1
      subst hok
      refine ⟨el1, ?_, le1⟩
      simp only [PasswordSASLProvider.attempt_loop, hx]
      exact he1
    · push_neg at hcred
      obtain ⟨hcc0, hppn0⟩ := hcred
      have hcc : st.cachedCredentials = none := by
        cases hv : st.cachedCredentials
        · rfl
        · rw [hv] at hcc0
          simp at hcc0
      have hppn : pp jid n = none := by
        cases hv : pp jid n
        · rfl
        · rw [hv] at hppn0
          simp at hppn0
      refine ⟨[], ?_, by simp⟩
      simp [PasswordSASLProvider.attempt_loop, SASLProvider._execute,
        SASLMechanism.authenticate, credential_provider, hcc, hppn,
        isAuthenticationFailure]

/-- Under an always-mechanism-rejected wire oracle (for every mechanism) and
a never-aborting password provider, the mechanism loop exhausts all its
candidates and returns `False`. -/
theorem mech_loop_all_rejected (w : World) (pp : JID → Nat → Option String)
    (jid : JID) (max : Nat) (features : StreamFeatures) (texts : List String)
    (hrej : ∀ (m : MechClass) (token : Token) (n : Nat) (creds : String × String),
      isMechanismRejectedResult (w.exchange m token n creds) = true)
    (hpp : ∀ n, (pp jid n).isSome)
    (hfeat : features.saslMechanismsFeature = some texts)
    (hmax : 1 ≤ max) :
    ∀ (fuel : Nat) (classes : List MechClass) (st : ExecState),
      classes.length ≤ fuel →
      ∃ st', PasswordSASLProvider.mech_loop w pp jid max features fuel classes st =
        some (.ok false, st') := by
  intro fuel
  induction fuel with
  | zero =>
    intro classes st h
    have hc : classes = [] := List.length_eq_zero.mp (Nat.le_zero.mp h)
    subst hc
    exact ⟨st, rfl⟩
  | succ f ih =>
    intro classes st h
    cases classes with
    | nil => exact ⟨st, rfl⟩
    | cons c cs =>
      cases hfind : SASLProvider._find_supported w features (c :: cs) with
      | error e =>
        exfalso
        simp [SASLProvider._find_supported, hfeat] at hfind
      | ok o =>
       cases o with
       | none =>
        refine ⟨st, ?_⟩
        simp [PasswordSASLProvider.mech_loop, hfind]
       | some mt =>
        obtain ⟨mech, token⟩ := mt
        have hmem : mech ∈ c :: cs := find_supported_mem w features _ mech token hfind
        rcases hx : SASLProvider._execute w mech token pp jid 0 st with ⟨res, st1⟩
        have hok := execute_one_rejected w mech token pp jid 0 st
          (hrej mech token 0) (Or.inr (hpp 0))
        rw [hx] at hok
        dsimp only at hok
        subst hok
        obtain ⟨r, hr⟩ : ∃ r, max = r + 1 := ⟨max - 1, by omega⟩
        have hat : PasswordSASLProvider.attempt_loop w mech token pp jid
            max 0 st none = (.broke false, st1) := by
          rw [hr]
          simp [PasswordSASLProvider.attempt_loop, hx]
        have hlen : (c :: cs).length = cs.length + 1 := by simp
        have herase : ((c :: cs).erase mech).length = cs.length := by
          rw [List.length_erase_of_mem hmem]
          simp
        obtain ⟨st', hst'⟩ := ih ((c :: cs).erase mech) st1 (by omega)
        refine ⟨st', ?_⟩
        simp only [PasswordSASLProvider.mech_loop, hfind, hat]
        simpa using hst'

/-- When every attempt in the window `[n, n + r)` is answered with an
authentication-class condition (and the password provider answers every
prompt), the attempt loop prompts once per attempt with the incremented
attempt numbers `n, n+1, ...` (the cache is cleared after every failure),
runs one exchange per attempt, and finally raises the last remembered
authentication error. -/
theorem attempt_loop_all_auth (w : World) (m : MechClass) (token : Token)
    (pp : JID → Nat → Option String) (jid : JID) (pw cond : Nat → String)
    (txt : Nat → Option String)
    (hpp : ∀ i, pp jid i = some (pw i))
    (hex : ∀ i, w.exchange m token i (jid.localpart, pw i) =
      .saslFailure (cond i) (txt i))
    (hcond : ∀ i, cond i ∈ AUTHENTICATION_FAILURES) :
    ∀ (r n : Nat) (st : ExecState) (last : Option Exc),
      1 ≤ r →
      st.cachedCredentials = none →
      st.passwordSignalledAbort = false →
      PasswordSASLProvider.attempt_loop w m token pp jid r n st last =
        (.raised (.authenticationFailure (some (cond (n + r - 1))) (txt (n + r - 1))),
         { passwordSignalledAbort := false, cachedCredentials := none,
           promptLog := st.promptLog ++ List.range' n r,
           exchangeLog := st.exchangeLog ++ (List.range' n r).map (fun i => (m, i)) }) := by
  intro r
  induction r with
  | zero =>
    intro n st last hr
    exact absurd hr (by omega)
  | succ r ih =>
    intro n st last hr hcc hab
    have hauth : (cond n ∈ AUTHENTICATION_FAILURES) = True := by
      simp [hcond n]
    have hstep : SASLProvider._execute w m token pp jid n st =
        (.error (.authenticationFailure (some (cond n)) (txt n)),
         { passwordSignalledAbort := false,
           cachedCredentials := some (pw n),
           promptLog := st.promptLog ++ [n],
           exchangeLog := st.exchangeLog ++ [(m, n)] }) := by
      simp [SASLProvider._execute, SASLMechanism.authenticate,
        credential_provider, hcc, hpp n, hex n, hauth, hab]
    cases r with
    | zero =>
      simp [PasswordSASLProvider.attempt_loop, hstep, isAuthenticationFailure,
        List.range']
    | succ r' =>
      have hrec := ih (n + 1)
        { passwordSignalledAbort := false,
          cachedCredentials := none,
          promptLog := st.promptLog ++ [n],
          exchangeLog := st.exchangeLog ++ [(m, n)] }
        (some (.authenticationFailure (some (cond n)) (txt n)))
        (by omega) rfl rfl
      have hidx : n + 1 + (r' + 1) - 1 = n + (r' + 1 + 1) - 1 := by omega
      rw [hidx] at hrec
      rw [attempt_loop_succ, hstep]
      show PasswordSASLProvider.attempt_loop w m token pp jid (r' + 1) (n + 1)
          { passwordSignalledAbort := false, cachedCredentials := none,
            promptLog := st.promptLog ++ [n],
            exchangeLog := st.exchangeLog ++ [(m, n)] }
          (some (.authenticationFailure (some (cond n)) (txt n))) = _
      rw [hrec]
      simp [List.range'_succ]

/-- A run of the provider loop in which every provider returns `False` raises
the remembered error, or `SASLUnavailable` when none is remembered. -/
theorem sasl_loop_all_false (features : StreamFeatures)
    (tls_transport : Option TlsTransport)
    (resetFeatures : Nat → Except Exc StreamFeatures) :
    ∀ (ps : List SASLProviderFun),
      (∀ q ∈ ps, q features tls_transport = .ok false) →
      ∀ (resetIdx : Nat) (acc : Option Exc),
        sasl_provider_loop ps features tls_transport resetFeatures resetIdx acc =
          match acc with
          | some e => .error e
          | none => .error (.saslUnavailable "No common mechanisms") := by
  intro ps
  induction ps with
  | nil =>
    intro _ resetIdx acc
    cases acc <;> rfl
  | cons q qs ih =>
    intro hall resetIdx acc
    have hq := hall q (List.mem_cons_self q qs)
    have hqs : ∀ q' ∈ qs, q' features tls_transport = .ok false :=
      fun q' hq' => hall q' (List.mem_cons_of_mem q hq')
    simp only [sasl_provider_loop, hq]
    simpa using ih hqs resetIdx acc

/-- If a provider raises an authentication failure and every later provider
returns `False`, the loop re-raises that (last remembered) error, whatever
mix of `False` results and authentication failures precedes it. -/
theorem sasl_loop_last_auth (features : StreamFeatures)
    (tls_transport : Option TlsTransport)
    (resetFeatures : Nat → Except Exc StreamFeatures) (p : SASLProviderFun)
    (e : Exc) (hp : p features tls_transport = .error e)
    (hauth : isAuthenticationFailure e = true) :
    ∀ (ps1 ps2 : List SASLProviderFun),
      (∀ q ∈ ps1, q features tls_transport = .ok false ∨
        ∃ e', q features tls_transport = .error e' ∧
          isAuthenticationFailure e' = true) →
      (∀ q ∈ ps2, q features tls_transport = .ok false) →
      ∀ (resetIdx : Nat) (acc : Option Exc),
        sasl_provider_loop (ps1 ++ p :: ps2) features tls_transport resetFeatures
          resetIdx acc = .error e := by
  intro ps1
  induction ps1 with
  | nil =>
    intro ps2 _ h2 resetIdx acc
    simp only [List.nil_append, sasl_provider_loop, hp, hauth, if_true]
    simpa using sasl_loop_all_false features tls_transport resetFeatures ps2 h2
      resetIdx (some e)
  | cons q qs ih =>
    intro ps2 h1 h2 resetIdx acc
    have hq := h1 q (List.mem_cons_self q qs)
    have hqs : ∀ q' ∈ qs, q' features tls_transport = .ok false ∨
        ∃ e', q' features tls_transport = .error e' ∧
          isAuthenticationFailure e' = true :=
      fun q' hq' => h1 q' (List.mem_cons_of_mem q hq')
    rcases hq with hq | ⟨e', hq, hauth'⟩
    · simp only [List.cons_append, sasl_provider_loop, hq]
      simpa using ih ps2 hqs h2 resetIdx acc
    · simp only [List.cons_append, sasl_provider_loop, hq, hauth', if_true]
      exact ih ps2 hqs h2 resetIdx (some e')

/-! ### Claim theorems -/

/-- Claim C2: within one mechanism run of `PasswordSASLProvider.execute` in
which every attempt fails with an authentication-class condition, each failed
attempt clears the credential cache and re-consults the Credential Source
with the incremented attempt number (the prompt log is exactly
`0, 1, ..., max_auth_attempts - 1` and one exchange runs per attempt), the
last remembered authentication error is raised when the attempts are
exhausted; and in any run whatsoever, the number of exchange runs of a single
mechanism never exceeds `max_auth_attempts`. -/
theorem C2_retry_increment_cache_clear_bound (w : World)
    (pp : JID → Nat → Option String) (max_auth_attempts : Nat)
    (client_jid : JID) (features : StreamFeatures)
    (tls_transport : Option TlsTransport) (m : MechClass) (token : Token)
    (pw cond : Nat → String) (txt : Nat → Option String)
    (hmax : 1 ≤ max_auth_attempts)
    (hfind : SASLProvider._find_supported w features
        (PasswordSASLProvider.classes_for tls_transport) = .ok (some (m, token)))
    (hpp : ∀ i, pp client_jid.bare i = some (pw i))
    (hex : ∀ i, w.exchange m token i (client_jid.bare.localpart, pw i) =
      .saslFailure (cond i) (txt i))
    (hcond : ∀ i, cond i ∈ AUTHENTICATION_FAILURES) :
    PasswordSASLProvider.execute w pp max_auth_attempts client_jid features
        tls_transport =
      (.error (.authenticationFailure (some (cond (max_auth_attempts - 1)))
          (txt (max_auth_attempts - 1))),
       { passwordSignalledAbort := false, cachedCredentials := none,
         promptLog := List.range max_auth_attempts,
         exchangeLog := (List.range max_auth_attempts).map (fun i => (m, i)) })
    ∧ ∀ (w' : World) (pp' : JID → Nat → Option String) (jid' : JID)
        (features' : StreamFeatures) (tls' : Option TlsTransport) (m' : MechClass),
        countMech (PasswordSASLProvider.execute w' pp' max_auth_attempts jid'
            features' tls').2.exchangeLog m' ≤ max_auth_attempts := by
  have hat := attempt_loop_all_auth w m token pp client_jid.bare pw cond txt
    hpp hex hcond max_auth_attempts 0 initialExecState none hmax rfl rfl
  have hidx : 0 + max_auth_attempts - 1 = max_auth_attempts - 1 := by omega
  rw [hidx] at hat
  simp only [initialExecState, List.nil_append] at hat
  constructor
  · cases htls : tls_transport <;>
      simp [htls, PasswordSASLProvider.classes_for] at hfind <;>
      simp [PasswordSASLProvider.execute, PasswordSASLProvider.classes_for,
        PasswordSASLProvider.mech_loop, hfind, hat, initialExecState,
        List.range_eq_range']
  · intro w' pp' jid' features' tls' m'
    have HB : ∀ (token' : Token) (st : ExecState),
        countMech (PasswordSASLProvider.attempt_loop w' m' token' pp' jid'.bare
            max_auth_attempts 0 st none).2.exchangeLog m' ≤
          countMech st.exchangeLog m' + max_auth_attempts := by
      intro token' st
      obtain ⟨pl, el, hp, he, lp, hle, hmm⟩ :=
        attempt_loop_log w' m' token' pp' jid'.bare max_auth_attempts 0 st none
      unfold countMech
      rw [he, List.countP_append]
      have := countMech_le_length el m'
      unfold countMech at this
      omega
    obtain ⟨res, hres, -⟩ := mech_loop_some_log w' pp' jid'.bare max_auth_attempts
      features' (PasswordSASLProvider.classes_for tls').length
      (PasswordSASLProvider.classes_for tls') initialExecState (le_refl _)
    have hnd : (PasswordSASLProvider.classes_for tls').Nodup := by
      cases tls' <;> simp [PasswordSASLProvider.classes_for]
    have hcount := mech_loop_countM w' pp' jid'.bare max_auth_attempts features'
      m' max_auth_attempts HB _ _ initialExecState res hnd hres
    have hexec : PasswordSASLProvider.execute w' pp' max_auth_attempts jid'
        features' tls' = res := by
      simp [PasswordSASLProvider.execute, hres]
    rw [hexec]
    have h0 : countMech initialExecState.exchangeLog m' = 0 := rfl
    by_cases hmem : m' ∈ PasswordSASLProvider.classes_for tls' <;>
      simp [hmem] at hcount <;> omega

/-- Witness for C2: two attempts, both rejected with `not-authorized`; the
provider prompts at attempts 0 and 1 and raises the last error. -/
theorem C2_retry_increment_cache_clear_bound_witness :
    PasswordSASLProvider.execute
        ⟨fun _ _ => some ⟨0⟩, fun _ _ _ _ => .saslFailure "not-authorized" none⟩
        (fun _ n => some (toString n)) 2 ⟨"romeo", "example.com", none⟩
        ⟨false, some ["SCRAM-SHA-1"]⟩ none =
      (.error (.authenticationFailure (some "not-authorized") none),
       { passwordSignalledAbort := false, cachedCredentials := none,
         promptLog := List.range 2,
         exchangeLog := (List.range 2).map (fun i => (MechClass.SCRAM, i)) })
    ∧ ∀ (w' : World) (pp' : JID → Nat → Option String) (jid' : JID)
        (features' : StreamFeatures) (tls' : Option TlsTransport) (m' : MechClass),
        countMech (PasswordSASLProvider.execute w' pp' 2 jid'
            features' tls').2.exchangeLog m' ≤ 2 :=
  C2_retry_increment_cache_clear_bound
    ⟨fun _ _ => some ⟨0⟩, fun _ _ _ _ => .saslFailure "not-authorized" none⟩
    (fun _ n => some (toString n)) 2 ⟨"romeo", "example.com", none⟩
    ⟨false, some ["SCRAM-SHA-1"]⟩ none MechClass.SCRAM ⟨0⟩
    (fun n => toString n) (fun _ => "not-authorized") (fun _ => none)
    (by decide) (by decide) (fun _ => rfl) (fun _ => rfl)
    (fun _ => (by decide : "not-authorized" ∈ AUTHENTICATION_FAILURES))

/-- Claim C4: with no TLS transport, the plaintext mechanism `PLAIN` is never
in the candidate list and no `PLAIN` exchange ever runs, whatever the peer
advertises; `PLAIN` is a candidate exactly when a TLS transport is present. -/
theorem C4_no_plain_without_tls (w : World) (pp : JID → Nat → Option String)
    (max_auth_attempts : Nat) (client_jid : JID) (features : StreamFeatures) :
    (PasswordSASLProvider.classes_for none).contains MechClass.PLAIN = false
    ∧ (PasswordSASLProvider.execute w pp max_auth_attempts client_jid features
        none).2.exchangeLog.all (fun e => e.1 == MechClass.SCRAM) = true
    ∧ ∀ (t : TlsTransport),
        (PasswordSASLProvider.classes_for (some t)).contains MechClass.PLAIN = true := by
  refine ⟨rfl, ?_, fun t => rfl⟩
  obtain ⟨res, hres, -⟩ := mech_loop_some_log w pp client_jid.bare max_auth_attempts
    features (PasswordSASLProvider.classes_for none).length
    (PasswordSASLProvider.classes_for none) initialExecState (le_refl _)
  have hent := mech_loop_entries w pp client_jid.bare max_auth_attempts features
    _ _ _ res hres
  have hexec : PasswordSASLProvider.execute w pp max_auth_attempts client_jid
      features none = res := by
    simp [PasswordSASLProvider.execute, hres]
  rw [hexec, List.all_eq_true]
  intro e he
  rcases hent e he with h | h
  · simp [initialExecState] at h
  · simp only [PasswordSASLProvider.classes_for] at h
    simp at h
    simp [h]

/-- Claim C6: a mechanism whose exchanges always fail with a
mechanism-rejected-class condition runs at most one exchange in a whole
`PasswordSASLProvider.execute` call (it is removed from the candidates and
never attempted again); and when it is the only candidate (no TLS, so the
candidates are exactly `[SCRAM]`), the call returns `False` after that single
exchange. -/
theorem C6_mechanism_rejected_removed (w : World) (pp : JID → Nat → Option String)
    (max_auth_attempts : Nat) (client_jid : JID) (features : StreamFeatures)
    (tls_transport : Option TlsTransport) (m : MechClass)
    (hrej : ∀ (token : Token) (n : Nat) (creds : String × String),
      isMechanismRejectedResult (w.exchange m token n creds) = true) :
    countMech (PasswordSASLProvider.execute w pp max_auth_attempts client_jid
        features tls_transport).2.exchangeLog m ≤ 1
    ∧ (∀ (token : Token) (pw : String),
        1 ≤ max_auth_attempts →
        pp client_jid.bare 0 = some pw →
        SASLProvider._find_supported w features [MechClass.SCRAM] =
          .ok (some (MechClass.SCRAM, token)) →
        m = MechClass.SCRAM →
        (PasswordSASLProvider.execute w pp max_auth_attempts client_jid features
            none).1 = .ok false ∧
        (PasswordSASLProvider.execute w pp max_auth_attempts client_jid features
            none).2.exchangeLog = [(MechClass.SCRAM, 0)]) := by
  constructor
  · have HB : ∀ (token : Token) (st : ExecState),
        countMech (PasswordSASLProvider.attempt_loop w m token pp client_jid.bare
            max_auth_attempts 0 st none).2.exchangeLog m ≤
          countMech st.exchangeLog m + 1 := by
      intro token st
      obtain ⟨el, he, le1⟩ := attempt_loop_reject w m pp client_jid.bare hrej
        token max_auth_attempts 0 st none
      unfold countMech
      rw [he, List.countP_append]
      have := countMech_le_length el m
      unfold countMech at this
      omega
    obtain ⟨res, hres, -⟩ := mech_loop_some_log w pp client_jid.bare
      max_auth_attempts features (PasswordSASLProvider.classes_for tls_transport).length
      (PasswordSASLProvider.classes_for tls_transport) initialExecState (le_refl _)
    have hnd : (PasswordSASLProvider.classes_for tls_transport).Nodup := by
      cases tls_transport <;> simp [PasswordSASLProvider.classes_for]
    have hcount := mech_loop_countM w pp client_jid.bare max_auth_attempts features
      m 1 HB _ _ initialExecState res hnd hres
    have hexec : PasswordSASLProvider.execute w pp max_auth_attempts client_jid
        features tls_transport = res := by
      simp [PasswordSASLProvider.execute, hres]
    rw [hexec]
    have h0 : countMech initialExecState.exchangeLog m = 0 := rfl
    by_cases hmem : m ∈ PasswordSASLProvider.classes_for tls_transport <;>
      simp [hmem] at hcount <;> omega
  · intro token pw hmax hpw hfind hm
    subst hm
    obtain ⟨r, hr⟩ : ∃ r, max_auth_attempts = r + 1 :=
      ⟨max_auth_attempts - 1, by omega⟩
    have h1 := hrej token 0 (client_jid.bare.localpart, pw)
    rcases hex : w.exchange MechClass.SCRAM token 0 (client_jid.bare.localpart, pw)
      with _ | ⟨cond, text⟩ | msg
    · rw [hex] at h1
      simp [isMechanismRejectedResult] at h1
    · rw [hex] at h1
      have hmem2 : cond ∈ MECHANISM_REJECTED_FAILURES := by
        simpa [isMechanismRejectedResult] using h1
      have hnot := mech_rejected_not_auth hmem2
      have hstep : SASLProvider._execute w MechClass.SCRAM token pp
          client_jid.bare 0 initialExecState =
          (.ok false,
           { passwordSignalledAbort := false, cachedCredentials := some pw,
             promptLog := [0], exchangeLog := [(MechClass.SCRAM, 0)] }) := by
        simp [SASLProvider._execute, SASLMechanism.authenticate,
          credential_provider, initialExecState, hpw, hex, hmem2, hnot]
      have hat : PasswordSASLProvider.attempt_loop w MechClass.SCRAM token pp
          client_jid.bare (r + 1) 0 initialExecState none =
          (.broke false,
           { passwordSignalledAbort := false, cachedCredentials := some pw,
             promptLog := [0], exchangeLog := [(MechClass.SCRAM, 0)] }) := by
        rw [attempt_loop_succ, hstep]
      have hexec : PasswordSASLProvider.execute w pp (r + 1) client_jid
          features none =
          (.ok false,
           { passwordSignalledAbort := false, cachedCredentials := some pw,
             promptLog := [0], exchangeLog := [(MechClass.SCRAM, 0)] }) := by
        simp [PasswordSASLProvider.execute, PasswordSASLProvider.classes_for,
          PasswordSASLProvider.mech_loop, hfind, hat]
      rw [hr, hexec]
      exact ⟨rfl, rfl⟩
    · rw [hex] at h1
      simp [isMechanismRejectedResult] at h1

/-- Witness for C6: a world whose `SCRAM` exchange always answers
`mechanism-too-weak`, with `SCRAM` the only candidate. -/
theorem C6_mechanism_rejected_removed_witness :
    countMech (PasswordSASLProvider.execute
        ⟨fun _ _ => some ⟨0⟩, fun _ _ _ _ => .saslFailure "mechanism-too-weak" none⟩
        (fun _ _ => some "pw") 3 ⟨"romeo", "example.com", none⟩
        ⟨false, some ["SCRAM-SHA-1"]⟩ none).2.exchangeLog MechClass.SCRAM ≤ 1
    ∧ (PasswordSASLProvider.execute
        ⟨fun _ _ => some ⟨0⟩, fun _ _ _ _ => .saslFailure "mechanism-too-weak" none⟩
        (fun _ _ => some "pw") 3 ⟨"romeo", "example.com", none⟩
        ⟨false, some ["SCRAM-SHA-1"]⟩ none).1 = .ok false
    ∧ (PasswordSASLProvider.execute
        ⟨fun _ _ => some ⟨0⟩, fun _ _ _ _ => .saslFailure "mechanism-too-weak" none⟩
        (fun _ _ => some "pw") 3 ⟨"romeo", "example.com", none⟩
        ⟨false, some ["SCRAM-SHA-1"]⟩ none).2.exchangeLog = [(MechClass.SCRAM, 0)] := by
  have h := C6_mechanism_rejected_removed
    ⟨fun _ _ => some ⟨0⟩, fun _ _ _ _ => .saslFailure "mechanism-too-weak" none⟩
    (fun _ _ => some "pw") 3 ⟨"romeo", "example.com", none⟩
    ⟨false, some ["SCRAM-SHA-1"]⟩ none MechClass.SCRAM
    (fun _ _ _ => (by decide : isMechanismRejectedResult
      (ExchangeResult.saslFailure "mechanism-too-weak" none) = true))
  have h2 := h.2 ⟨0⟩ "pw" (by decide) rfl (by decide) rfl
  exact ⟨h.1, h2.1, h2.2⟩

/-- Claim C10: `PasswordSASLProvider.execute` terminates: with fuel equal
to the number of initial candidates the mechanism loop always returns (so
its body runs at most `classes.length ≤ 2` times), and the total number of
exchange runs and prompts is bounded by `classes.length * max_auth_attempts`. -/
theorem C10_execute_terminates (w : World) (pp : JID → Nat → Option String)
    (max_auth_attempts : Nat) (client_jid : JID) (features : StreamFeatures)
    (tls_transport : Option TlsTransport) :
    (PasswordSASLProvider.mech_loop w pp client_jid.bare max_auth_attempts features
        (PasswordSASLProvider.classes_for tls_transport).length
        (PasswordSASLProvider.classes_for tls_transport) initialExecState).isSome = true
    ∧ (PasswordSASLProvider.classes_for tls_transport).length ≤ 2
    ∧ (PasswordSASLProvider.execute w pp max_auth_attempts client_jid features
        tls_transport).2.exchangeLog.length ≤
      (PasswordSASLProvider.classes_for tls_transport).length * max_auth_attempts
    ∧ (PasswordSASLProvider.execute w pp max_auth_attempts client_jid features
        tls_transport).2.promptLog.length ≤
      (PasswordSASLProvider.classes_for tls_transport).length * max_auth_attempts := by
  obtain ⟨res, hres, pl, el, hp, he, lp, hle⟩ := mech_loop_some_log w pp
    client_jid.bare max_auth_attempts features
    (PasswordSASLProvider.classes_for tls_transport).length
    (PasswordSASLProvider.classes_for tls_transport) initialExecState (le_refl _)
  have hexec : PasswordSASLProvider.execute w pp max_auth_attempts client_jid
      features tls_transport = res := by
    simp [PasswordSASLProvider.execute, hres]
  refine ⟨by rw [hres]; rfl,
    by cases tls_transport <;> simp [PasswordSASLProvider.classes_for], ?_, ?_⟩
  · rw [hexec, he]
    simpa [initialExecState] using hle
  · rw [hexec, hp]
    simpa [initialExecState] using lp

/-- Claim C3: in `STARTTLSProvider.execute`, once the peer has answered
"proceed", any error raised by the TLS upgrade step is fatal regardless of the
`require_starttls` flag: it is reported as a `TLSFailure` wrapping the
underlying cause, and is never converted into the non-error skipped
outcome. -/
theorem C3_proceed_upgrade_error_fatal (required : Bool)
    (features : StreamFeatures) (xmlstream : XmlStreamTLS) (msg : String)
    (h1 : features.hasStarttls = true)
    (h2 : xmlstream.transportHasStarttls = true)
    (h3 : xmlstream.peerRepliesProceed = true)
    (h4 : xmlstream.starttlsResult = .error msg) :
    STARTTLSProvider.execute required features xmlstream =
      .error (.tlsFailure ("TLS connection failed: " ++ msg)) := by
  simp [STARTTLSProvider.execute, h1, h2, h3, h4]

/-- Witness for C3: a concrete run with `require_starttls = false` whose
upgrade step fails. -/
theorem C3_proceed_upgrade_error_fatal_witness :
    STARTTLSProvider.execute false ⟨true, none⟩ ⟨true, true, .error "certificate mismatch"⟩ =
      .error (.tlsFailure ("TLS connection failed: " ++ "certificate mismatch")) :=
  C3_proceed_upgrade_error_fatal false ⟨true, none⟩
    ⟨true, true, .error "certificate mismatch"⟩ "certificate mismatch" rfl rfl rfl rfl

/-- Claim C7: whenever the peer does not advertise STARTTLS, or the transport
cannot upgrade, or the peer answers "failure" before any upgrade began,
`STARTTLSProvider.execute` fails with `TLSFailure` when `require_starttls` is
true and returns the non-error skipped outcome (`None`) when it is false; a
skipped TLS phase makes `negotiate_stream_security` proceed directly to the
SASL provider loop. -/
theorem C7_starttls_unavailable_respects_required (required : Bool)
    (features : StreamFeatures) (xmlstream : XmlStreamTLS)
    (h : features.hasStarttls = false ∨ xmlstream.transportHasStarttls = false ∨
         xmlstream.peerRepliesProceed = false) :
    (required = true →
      ∃ msg, STARTTLSProvider.execute required features xmlstream =
        .error (.tlsFailure msg))
    ∧ (required = false →
      STARTTLSProvider.execute required features xmlstream = .ok none)
    ∧ (∀ (sasl_providers : List SASLProviderFun)
        (resetFeatures : Nat → Except Exc StreamFeatures) (f : StreamFeatures),
        negotiate_stream_security (.ok none) sasl_providers resetFeatures f =
          sasl_provider_loop sasl_providers f none resetFeatures 0 none) := by
  have key : ∃ msg, STARTTLSProvider.execute required features xmlstream =
      STARTTLSProvider._fail_if_required required msg := by
    unfold STARTTLSProvider.execute
    rcases h with h | h | h
    · exact ⟨"STARTTLS not supported by peer", by simp [h]⟩
    · cases hf : features.hasStarttls
      · exact ⟨"STARTTLS not supported by peer", by simp [hf]⟩
      · exact ⟨"STARTTLS not supported by us", by simp [hf, h]⟩
    · cases hf : features.hasStarttls
      · exact ⟨"STARTTLS not supported by peer", by simp [hf]⟩
      · cases ht : xmlstream.transportHasStarttls
        · exact ⟨"STARTTLS not supported by us", by simp [hf, ht]⟩
        · exact ⟨"STARTTLS failed on remote side", by simp [hf, ht, h]⟩
  obtain ⟨msg, hmsg⟩ := key
  refine ⟨?_, ?_, fun _ _ _ => rfl⟩
  · intro hreq
    exact ⟨msg, by rw [hmsg, hreq]; rfl⟩
  · intro hreq
    rw [hmsg, hreq]; rfl

/-- Witness for C7: a peer without STARTTLS advertisement, with the flag
required and not required. -/
theorem C7_starttls_unavailable_respects_required_witness :
    ((true : Bool) = true →
      ∃ msg, STARTTLSProvider.execute true ⟨false, none⟩ ⟨true, true, .ok ⟨0⟩⟩ =
        .error (.tlsFailure msg))
    ∧ ((true : Bool) = false →
      STARTTLSProvider.execute true ⟨false, none⟩ ⟨true, true, .ok ⟨0⟩⟩ = .ok none)
    ∧ (∀ (sasl_providers : List SASLProviderFun)
        (resetFeatures : Nat → Except Exc StreamFeatures) (f : StreamFeatures),
        negotiate_stream_security (.ok none) sasl_providers resetFeatures f =
          sasl_provider_loop sasl_providers f none resetFeatures 0 none) :=
  C7_starttls_unavailable_respects_required true ⟨false, none⟩
    ⟨true, true, .ok ⟨0⟩⟩ (Or.inl rfl)

/-- Claim C8: a feature snapshot with no SASL mechanisms feature at all makes
the mechanism lookup raise `SASLUnavailable` — and `PasswordSASLProvider`
propagates it as a fatal error rather than returning `False`. -/
theorem C8_missing_sasl_feature_fatal (w : World) (features : StreamFeatures)
    (mechanism_classes : List MechClass)
    (password_provider : JID → Nat → Option String) (client_jid : JID)
    (max_auth_attempts : Nat) (tls_transport : Option TlsTransport)
    (h : features.saslMechanismsFeature = none) :
    SASLProvider._find_supported w features mechanism_classes =
      .error (.saslUnavailable "Remote side does not support SASL")
    ∧ (PasswordSASLProvider.execute w password_provider max_auth_attempts
        client_jid features tls_transport).1 =
      .error (.saslUnavailable "Remote side does not support SASL") := by
  constructor
  · simp [SASLProvider._find_supported, h]
  · cases tls_transport <;>
      simp [PasswordSASLProvider.execute, PasswordSASLProvider.classes_for,
        PasswordSASLProvider.mech_loop, SASLProvider._find_supported, h]

/-- Witness for C8: a concrete snapshot with no SASL feature. -/
theorem C8_missing_sasl_feature_fatal_witness :
    SASLProvider._find_supported
        ⟨fun _ _ => some ⟨0⟩, fun _ _ _ _ => .success⟩ ⟨true, none⟩ [.SCRAM] =
      .error (.saslUnavailable "Remote side does not support SASL")
    ∧ (PasswordSASLProvider.execute ⟨fun _ _ => some ⟨0⟩, fun _ _ _ _ => .success⟩
        (fun _ _ => some "pw") 3 ⟨"romeo", "example.com", none⟩ ⟨true, none⟩ none).1 =
      .error (.saslUnavailable "Remote side does not support SASL") :=
  C8_missing_sasl_feature_fatal ⟨fun _ _ => some ⟨0⟩, fun _ _ _ _ => .success⟩
    ⟨true, none⟩ [.SCRAM] (fun _ _ => some "pw") ⟨"romeo", "example.com", none⟩
    3 none rfl

/-- Claim C9: `negotiate_stream_security` with an empty SASL provider list
raises `SASLUnavailable("No common mechanisms")` after a skipped or successful
TLS phase, and `security_layer` independently rejects an empty provider list
with a `ValueError` at construction time. -/
theorem C9_empty_sasl_providers
    (resetFeatures : Nat → Except Exc StreamFeatures) (features : StreamFeatures)
    (t : TlsTransport) :
    negotiate_stream_security (.ok none) [] resetFeatures features =
      .error (.saslUnavailable "No common mechanisms")
    ∧ (∀ f1, resetFeatures 0 = .ok f1 →
        negotiate_stream_security (.ok (some t)) [] resetFeatures features =
          .error (.saslUnavailable "No common mechanisms"))
    ∧ security_layer (0 : Nat) [] =
      .error (.valueError "At least one SASL provider must be given.") := by
  refine ⟨rfl, ?_, rfl⟩
  intro f1 h1
  simp [negotiate_stream_security, h1, sasl_provider_loop]

/-- Witness for C9: concrete empty-provider runs, TLS skipped and TLS
established. -/
theorem C9_empty_sasl_providers_witness :
    negotiate_stream_security (.ok none) [] (fun _ => .ok ⟨false, some []⟩)
        ⟨false, some []⟩ =
      .error (.saslUnavailable "No common mechanisms")
    ∧ negotiate_stream_security (.ok (some ⟨0⟩)) []
        (fun _ => .ok ⟨false, some []⟩) ⟨false, some []⟩ =
      .error (.saslUnavailable "No common mechanisms")
    ∧ security_layer (0 : Nat) [] =
      .error (.valueError "At least one SASL provider must be given.") := by
  have h := C9_empty_sasl_providers (fun _ => .ok ⟨false, some []⟩)
    ⟨false, some []⟩ ⟨0⟩
  exact ⟨h.1, h.2.1 ⟨false, some []⟩ rfl, h.2.2⟩

/-- Claim C1 (counterexample): the user abort does raise
`AuthenticationFailure("Authentication aborted by user")` out of
`PasswordSASLProvider.execute`, but `negotiate_stream_security` catches it
like any `AuthenticationFailure` and falls back to the next SASL provider in
the list: with a succeeding provider after the aborting one, the whole
negotiation returns success instead of propagating the abort failure. -/
theorem C1_counterexample :
    c1AbortProvider c1Features none =
      .error (.authenticationFailure (some "Authentication aborted by user") none)
    ∧ negotiate_stream_security (.ok none) [c1AbortProvider, c1NextProvider]
        c1Reset c1Features = .ok (none, c1Features) := by
  constructor
  · decide
  · decide

/-- Claim C1 (amended): with a user abort at the first credential request,
`PasswordSASLProvider.execute` raises
`AuthenticationFailure("Authentication aborted by user")` immediately — no
further prompt, no wire exchange, no further mechanism — but at the
orchestrator level this failure is remembered like any authentication failure
and the loop falls back to the remaining providers; it propagates out of
`negotiate_stream_security` only as the remembered last error once the
provider list is exhausted (in particular, when the aborting provider is the
last one). -/
theorem C1_abort_immediate_then_provider_fallback (w : World)
    (password_provider : JID → Nat → Option String) (max_auth_attempts : Nat)
    (client_jid : JID) (features : StreamFeatures)
    (tls_transport : Option TlsTransport) (m : MechClass) (token : Token)
    (rest : List SASLProviderFun)
    (resetFeatures : Nat → Except Exc StreamFeatures) (resetIdx : Nat)
    (hmax : 1 ≤ max_auth_attempts)
    (hpp : password_provider client_jid.bare 0 = none)
    (hfind : SASLProvider._find_supported w features
        (PasswordSASLProvider.classes_for tls_transport) = .ok (some (m, token))) :
    PasswordSASLProvider.execute w password_provider max_auth_attempts
        client_jid features tls_transport =
      (.error (.authenticationFailure (some "Authentication aborted by user") none),
       { passwordSignalledAbort := true, cachedCredentials := none,
         promptLog := [0], exchangeLog := [] })
    ∧ sasl_provider_loop
        ((fun f t => (PasswordSASLProvider.execute w password_provider
            max_auth_attempts client_jid f t).1) :: rest)
        features tls_transport resetFeatures resetIdx none =
      sasl_provider_loop rest features tls_transport resetFeatures resetIdx
        (some (.authenticationFailure (some "Authentication aborted by user") none)) := by
  obtain ⟨r, rfl⟩ : ∃ r, max_auth_attempts = r + 1 :=
    ⟨max_auth_attempts - 1, by omega⟩
  have habort : PasswordSASLProvider.attempt_loop w m token password_provider
      client_jid.bare (r + 1) 0 initialExecState none =
      (.raised (.authenticationFailure (some "Authentication aborted by user") none),
       { passwordSignalledAbort := true, cachedCredentials := none,
         promptLog := [0], exchangeLog := [] }) := by
    simp [PasswordSASLProvider.attempt_loop, SASLProvider._execute,
      SASLMechanism.authenticate, credential_provider, initialExecState, hpp,
      isAuthenticationFailure]
  have hexec : PasswordSASLProvider.execute w password_provider (r + 1)
      client_jid features tls_transport =
      (.error (.authenticationFailure (some "Authentication aborted by user") none),
       { passwordSignalledAbort := true, cachedCredentials := none,
         promptLog := [0], exchangeLog := [] }) := by
    cases htls : tls_transport <;>
      simp [htls, PasswordSASLProvider.classes_for] at hfind <;>
      simp [PasswordSASLProvider.execute, PasswordSASLProvider.classes_for,
        PasswordSASLProvider.mech_loop, hfind, habort]
  refine ⟨hexec, ?_⟩
  simp [sasl_provider_loop, hexec, isAuthenticationFailure]

/-- Witness for the amended C1: a concrete aborting run, with one further
provider remaining in the list. -/
theorem C1_abort_immediate_then_provider_fallback_witness :
    PasswordSASLProvider.execute c1World c1AbortPP 3 c1Jid c1Features none =
      (.error (.authenticationFailure (some "Authentication aborted by user") none),
       { passwordSignalledAbort := true, cachedCredentials := none,
         promptLog := [0], exchangeLog := [] })
    ∧ sasl_provider_loop
        ((fun f t => (PasswordSASLProvider.execute c1World c1AbortPP 3 c1Jid f t).1)
          :: [c1NextProvider])
        c1Features none c1Reset 0 none =
      sasl_provider_loop [c1NextProvider] c1Features none c1Reset 0
        (some (.authenticationFailure (some "Authentication aborted by user") none)) :=
  C1_abort_immediate_then_provider_fallback c1World c1AbortPP 3 c1Jid c1Features
    none .SCRAM ⟨0⟩ [c1NextProvider] c1Reset 0 (by decide) rfl (by decide)

/-- Claim C5: when the provider loop of `negotiate_stream_security` exhausts
all SASL providers, the last remembered authentication failure is re-raised
if one exists; if every provider returned `False` the loop raises
`SASLUnavailable("No common mechanisms")` — in particular a run whose single
password provider sees only mechanism-rejected conditions for every mechanism
ends in `SASLUnavailable`, not in an authentication error. -/
theorem C5_provider_exhaustion_policy (features : StreamFeatures)
    (tls_transport : Option TlsTransport)
    (resetFeatures : Nat → Except Exc StreamFeatures) :
    (∀ (ps1 ps2 : List SASLProviderFun) (p : SASLProviderFun) (e : Exc),
      (∀ q ∈ ps1, q features tls_transport = .ok false ∨
        ∃ e', q features tls_transport = .error e' ∧
          isAuthenticationFailure e' = true) →
      p features tls_transport = .error e →
      isAuthenticationFailure e = true →
      (∀ q ∈ ps2, q features tls_transport = .ok false) →
      ∀ (resetIdx : Nat),
        sasl_provider_loop (ps1 ++ p :: ps2) features tls_transport
          resetFeatures resetIdx none = .error e)
    ∧ (∀ (ps : List SASLProviderFun),
        (∀ q ∈ ps, q features (none : Option TlsTransport) = .ok false) →
        negotiate_stream_security (.ok none) ps resetFeatures features =
          .error (.saslUnavailable "No common mechanisms"))
    ∧ (∀ (w : World) (pp : JID → Nat → Option String) (max_auth_attempts : Nat)
        (client_jid : JID) (texts : List String),
        (∀ (m : MechClass) (token : Token) (n : Nat) (creds : String × String),
          isMechanismRejectedResult (w.exchange m token n creds) = true) →
        (∀ n, (pp client_jid.bare n).isSome) →
        features.saslMechanismsFeature = some texts →
        1 ≤ max_auth_attempts →
        negotiate_stream_security (.ok none)
          [fun f t => (PasswordSASLProvider.execute w pp max_auth_attempts
            client_jid f t).1]
          resetFeatures features =
          .error (.saslUnavailable "No common mechanisms")) := by
  refine ⟨?_, ?_, ?_⟩
  · intro ps1 ps2 p e h1 hp hauth h2 resetIdx
    exact sasl_loop_last_auth features tls_transport resetFeatures p e hp hauth
      ps1 ps2 h1 h2 resetIdx none
  · intro ps hall
    have := sasl_loop_all_false features none resetFeatures ps hall 0 none
    simpa [negotiate_stream_security] using this
  · intro w pp max_auth_attempts client_jid texts hrej hpp hfeat hmax
    obtain ⟨st', hst'⟩ := mech_loop_all_rejected w pp client_jid.bare
      max_auth_attempts features texts hrej hpp hfeat hmax
      (PasswordSASLProvider.classes_for none).length
      (PasswordSASLProvider.classes_for none) initialExecState (le_refl _)
    have hfalse : (PasswordSASLProvider.execute w pp max_auth_attempts client_jid
        features none).1 = .ok false := by
      simp [PasswordSASLProvider.execute, hst']
    have hall : ∀ q ∈ [fun f t => (PasswordSASLProvider.execute w pp
        max_auth_attempts client_jid f t).1],
        q features (none : Option TlsTransport) = .ok false := by
      intro q hq
      rw [List.mem_singleton] at hq
      subst hq
      exact hfalse
    have := sasl_loop_all_false features none resetFeatures _ hall 0 none
    simpa [negotiate_stream_security] using this

/-- Witness for C5: a loop with a mixed prefix, a last authentication
failure and a trailing `False` provider re-raises the last failure; an
all-`False` run and an all-mechanism-rejected password-provider run both end
in `SASLUnavailable("No common mechanisms")`. -/
theorem C5_provider_exhaustion_policy_witness :
    sasl_provider_loop
        ([fun _ _ => .ok false] ++
          (fun _ _ => .error (.authenticationFailure (some "not-authorized") none)) ::
          [fun _ _ => .ok false])
        ⟨false, some ["SCRAM-SHA-1"]⟩ none (fun _ => .ok ⟨false, some []⟩) 0 none =
      .error (.authenticationFailure (some "not-authorized") none)
    ∧ negotiate_stream_security (.ok none) [fun _ _ => .ok false]
        (fun _ => .ok ⟨false, some []⟩) ⟨false, some ["SCRAM-SHA-1"]⟩ =
      .error (.saslUnavailable "No common mechanisms")
    ∧ negotiate_stream_security (.ok none)
        [fun f t => (PasswordSASLProvider.execute
          ⟨fun _ _ => some ⟨0⟩, fun _ _ _ _ => .saslFailure "mechanism-too-weak" none⟩
          (fun _ _ => some "pw") 3 ⟨"romeo", "example.com", none⟩ f t).1]
        (fun _ => .ok ⟨false, some []⟩) ⟨false, some ["SCRAM-SHA-1"]⟩ =
      .error (.saslUnavailable "No common mechanisms") := by
  have h := C5_provider_exhaustion_policy ⟨false, some ["SCRAM-SHA-1"]⟩ none
    (fun _ => .ok ⟨false, some []⟩)
  have hsingle : ∀ q ∈ ([fun _ _ => .ok false] : List SASLProviderFun),
      q ⟨false, some ["SCRAM-SHA-1"]⟩ (none : Option TlsTransport) = .ok false := by
    intro q hq
    rw [List.mem_singleton] at hq
    subst hq
    rfl
  refine ⟨?_, h.2.1 [fun _ _ => .ok false] hsingle, ?_⟩
  · exact h.1 [fun _ _ => .ok false] [fun _ _ => .ok false]
      (fun _ _ => .error (.authenticationFailure (some "not-authorized") none))
      (.authenticationFailure (some "not-authorized") none)
      (fun q hq => by rw [List.mem_singleton] at hq; subst hq; exact Or.inl rfl)
      rfl rfl hsingle 0
  · exact h.2.2
      ⟨fun _ _ => some ⟨0⟩, fun _ _ _ _ => .saslFailure "mechanism-too-weak" none⟩
      (fun _ _ => some "pw") 3 ⟨"romeo", "example.com", none⟩ ["SCRAM-SHA-1"]
      (fun _ _ _ _ => (by decide : isMechanismRejectedResult
        (ExchangeResult.saslFailure "mechanism-too-weak" none) = true))
      (fun _ => rfl) rfl (by decide)

end AsyncioXMPP
